import Mathlib

/-!
Verification of the qe_mac_apid repository (src/main.rs, src/plist_data.rs).

The development shallowly embeds the property-list document model
(`MacPlist` and the `plist::Value` tree) and the orchestration logic of
`main`, and proves or refutes the frozen claims about them.

Rust's in-place mutation is modelled by functions returning a new value;
`plist::Dictionary` (insertion-ordered map) and `BTreeMap` are both
modelled as association lists with first-match lookup, first-match
replacement, and append-on-missing-key insertion, which matches the
operations the source performs on them.
-/

/-- Char-list analogue of Rust `str::starts_with`: the first list is a
prefix of the second. -/
def listStartsWith : List Char → List Char → Bool
  | [], _ => true
  | _ :: _, [] => false
  | a :: as, b :: bs => a == b && listStartsWith as bs

/-- Char-list analogue of Rust `str::contains` with a string pattern:
`needle` occurs as a contiguous substring of the haystack. -/
def listContainsSub (needle : List Char) : List Char → Bool
  | [] => listStartsWith needle []
  | c :: rest => listStartsWith needle (c :: rest) || listContainsSub needle rest

/-- The `plist::Value` tree, restricted to the variants the source code
constructs or inspects (String, Integer, Boolean, Data, Array,
Dictionary).  Data payloads are byte lists. -/
inductive Value where
  | string (s : String)
  | integer (n : Int)
  | boolean (b : Bool)
  | data (bytes : List Nat)
  | array (xs : List Value)
  | dictionary (entries : List (String × Value))

/-- First-match lookup in an association list: `Dictionary::get` /
`BTreeMap::get`. -/
def dictGet : List (String × Value) → String → Option Value
  | [], _ => none
  | p :: rest, k => if p.1 = k then some p.2 else dictGet rest k

/-- Replace the value at the first occurrence of key `k`.  This models
mutating the entry found by `get_mut` in place. -/
def replaceFirst : List (String × Value) → String → Value → List (String × Value)
  | [], _, _ => []
  | p :: rest, k, v => if p.1 = k then (k, v) :: rest else p :: replaceFirst rest k v

/-- The `Generic` struct of src/plist_data.rs (lines 154-167): the four
identity fields, the product name, and the serde-flattened passthrough
bag for unknown keys. -/
structure Generic where
  mlb : String
  rom : Value
  system_product_name : String
  system_serial_number : String
  system_uuid : String
  other : List (String × Value)

/-- The `PlatformInfo` struct of src/plist_data.rs (lines 146-152). -/
structure PlatformInfo where
  generic : Generic
  other : List (String × Value)

/-- The `MacPlist` struct of src/plist_data.rs (lines 7-13): the typed
`PlatformInfo` plus the flattened passthrough bag of all other top-level
keys. -/
structure MacPlist where
  platform_info : PlatformInfo
  other : List (String × Value)

/-- `MacPlist::get_product_name` (src/plist_data.rs line 20). -/
def MacPlist.get_product_name (m : MacPlist) : String :=
  m.platform_info.generic.system_product_name

/-- `MacPlist::get_serial_number` (src/plist_data.rs line 24). -/
def MacPlist.get_serial_number (m : MacPlist) : String :=
  m.platform_info.generic.system_serial_number

/-- `MacPlist::get_mlb` (src/plist_data.rs line 28). -/
def MacPlist.get_mlb (m : MacPlist) : String :=
  m.platform_info.generic.mlb

/-- `MacPlist::has_valid_serials` (src/plist_data.rs lines 32-41). -/
def MacPlist.has_valid_serials (m : MacPlist) : Bool :=
  let serial := m.get_serial_number
  let mlb := m.get_mlb
  !serial.isEmpty &&
  !mlb.isEmpty &&
  serial != "NO_DEVICE_SN" &&
  mlb != "NO_LOGIC_BOARD_SN"

/-- `MacPlist::set_serial_number` (src/plist_data.rs lines 43-45). -/
def MacPlist.set_serial_number (m : MacPlist) (serial_number : String) : MacPlist :=
  { m with platform_info :=
    { m.platform_info with generic :=
      { m.platform_info.generic with system_serial_number := serial_number } } }

/-- `MacPlist::set_mlb` (src/plist_data.rs lines 47-49). -/
def MacPlist.set_mlb (m : MacPlist) (mlb : String) : MacPlist :=
  { m with platform_info :=
    { m.platform_info with generic :=
      { m.platform_info.generic with mlb := mlb } } }

/-- `MacPlist::set_uuid` (src/plist_data.rs lines 51-53); the `Uuid`
argument is modelled by its `to_string()` rendering. -/
def MacPlist.set_uuid (m : MacPlist) (uuid : String) : MacPlist :=
  { m with platform_info :=
    { m.platform_info with generic :=
      { m.platform_info.generic with system_uuid := uuid } } }

/-- `MacPlist::set_rom` (src/plist_data.rs lines 55-57): stores the
12-byte array as `Value::Data`. -/
def MacPlist.set_rom (m : MacPlist) (rom : List Nat) : MacPlist :=
  { m with platform_info :=
    { m.platform_info with generic :=
      { m.platform_info.generic with rom := Value.data rom } } }

/-- C1: `has_valid_serials` is true exactly when the serial number and the
MLB are non-empty and differ from the two placeholder sentinels. -/
theorem c1_has_valid_serials_iff (m : MacPlist) :
    m.has_valid_serials = true ↔
      (m.get_serial_number ≠ "" ∧ m.get_mlb ≠ "" ∧
       m.get_serial_number ≠ "NO_DEVICE_SN" ∧ m.get_mlb ≠ "NO_LOGIC_BOARD_SN") := by
  simp [MacPlist.has_valid_serials, and_assoc, Bool.eq_false_iff, String.isEmpty_iff]

/-- Decode consecutive pairs of hex characters into bytes; the model of
`hex::decode` on the valid, even-length literals used by the source. -/
def hexVal (c : Char) : Nat :=
  if '0' ≤ c ∧ c ≤ '9' then c.toNat - '0'.toNat
  else if 'a' ≤ c ∧ c ≤ 'f' then c.toNat - 'a'.toNat + 10
  else if 'A' ≤ c ∧ c ≤ 'F' then c.toNat - 'A'.toNat + 10
  else 0

/-- Pairwise hex decoding over a char list. -/
def hexDecodeChars : List Char → List Nat
  | c1 :: c2 :: rest => (16 * hexVal c1 + hexVal c2) :: hexDecodeChars rest
  | _ => []

/-- Model of `hex::decode(s).unwrap()` for the hex literals in the source. -/
def hexDecode (s : String) : List Nat :=
  hexDecodeChars s.data

/-- The first patch record built by `add_sequoia_kernel_patches`
(src/plist_data.rs lines 88-101), keys in insertion order. -/
def sequoiaPatch1 : Value :=
  Value.dictionary
    [("Arch", Value.string "x86_64"),
     ("Base", Value.string ""),
     ("Comment", Value.string "Disable VM detection (kern.hv_vmm_present -> hibernatecount) for Sequoia"),
     ("Count", Value.integer 1),
     ("Enabled", Value.boolean true),
     ("Find", Value.data (hexDecode "68696265726E61746568696472656164790068696265726E617465636F756E7400")),
     ("Replace", Value.data (hexDecode "68696265726E61746568696472656164790068765F766D6D5F70726573656E7400")),
     ("Identifier", Value.string "kernel"),
     ("MinKernel", Value.string "24.0.0"),
     ("MaxKernel", Value.string ""),
     ("Mask", Value.data []),
     ("ReplaceMask", Value.data []),
     ("Skip", Value.integer 0)]

/-- The second patch record built by `add_sequoia_kernel_patches`
(src/plist_data.rs lines 104-117), keys in insertion order. -/
def sequoiaPatch2 : Value :=
  Value.dictionary
    [("Arch", Value.string "x86_64"),
     ("Base", Value.string ""),
     ("Comment", Value.string "Disable VM detection (hibernatecount -> hv_vmm_present) for Sequoia"),
     ("Count", Value.integer 1),
     ("Enabled", Value.boolean true),
     ("Find", Value.data (hexDecode "626F6F742073657373696F6E20555549440068765F766D6D5F70726573656E7400")),
     ("Replace", Value.data (hexDecode "626F6F742073657373696F6E20555549440068696265726E617465636F756E7400")),
     ("Identifier", Value.string "kernel"),
     ("MinKernel", Value.string "24.0.0"),
     ("MaxKernel", Value.string ""),
     ("Mask", Value.data []),
     ("ReplaceMask", Value.data []),
     ("Skip", Value.integer 0)]

/-- The marker predicate applied to one catalog entry: the entry is a
dictionary whose "Comment" string contains "kern.hv_vmm_present" or
"VM detection".  Shared by `add_sequoia_kernel_patches` (lines 76-84)
and `has_sequoia_patches` (lines 131-139). -/
def isVmmPatch (p : Value) : Bool :=
  match p with
  | Value.dictionary d =>
      match dictGet d "Comment" with
      | some (Value.string comment) =>
          listContainsSub "kern.hv_vmm_present".data comment.data ||
          listContainsSub "VM detection".data comment.data
      | _ => false
  | _ => false

/-- The `patches.iter().any(...)` check of src/plist_data.rs lines 76-84. -/
def has_vmm_patch (patches : List Value) : Bool :=
  patches.any isVmmPatch

/-- The body of `add_sequoia_kernel_patches` acting on the value stored
under the "Kernel" key (src/plist_data.rs lines 65-125): if it is a
dictionary, a missing "Patch" key is first given an empty array; if the
"Patch" value is an array with no marker-matching record, the two patch
records are appended; in every other case the value is left unchanged. -/
def patchKernelValue (v : Value) : Value :=
  match v with
  | Value.dictionary kd =>
      let kd1 := match dictGet kd "Patch" with
        | some _ => kd
        | none => kd ++ [("Patch", Value.array [])]
      match dictGet kd1 "Patch" with
      | some (Value.array patches) =>
          if has_vmm_patch patches then Value.dictionary kd1
          else Value.dictionary
            (replaceFirst kd1 "Patch"
              (Value.array (patches ++ [sequoiaPatch1, sequoiaPatch2])))
      | _ => Value.dictionary kd1
  | v => v

/-- `MacPlist::add_sequoia_kernel_patches` (src/plist_data.rs lines
59-126).  `self.other.entry("Kernel").or_insert_with(Dictionary::new)`
appends a fresh empty dictionary when the key is missing and otherwise
yields the existing value, which is then mutated in place. -/
def MacPlist.add_sequoia_kernel_patches (m : MacPlist) : MacPlist :=
  match dictGet m.other "Kernel" with
  | none =>
      { m with other := m.other ++ [("Kernel", patchKernelValue (Value.dictionary []))] }
  | some v =>
      { m with other := replaceFirst m.other "Kernel" (patchKernelValue v) }

/-- `MacPlist::has_sequoia_patches` (src/plist_data.rs lines 128-143). -/
def MacPlist.has_sequoia_patches (m : MacPlist) : Bool :=
  match dictGet m.other "Kernel" with
  | some (Value.dictionary kernel_dict) =>
      match dictGet kernel_dict "Patch" with
      | some (Value.array patches) => has_vmm_patch patches
      | _ => false
  | _ => false

/-- The patch catalog of a document, when present: the array stored under
Kernel/Patch.  Used to state the claims about catalog content. -/
def MacPlist.patch_catalog (m : MacPlist) : Option (List Value) :=
  match dictGet m.other "Kernel" with
  | some (Value.dictionary kernel_dict) =>
      match dictGet kernel_dict "Patch" with
      | some (Value.array patches) => some patches
      | _ => none
  | _ => none

/-- Lookup distributes over append when the key misses the left part. -/
theorem dictGet_append_right (l₁ l₂ : List (String × Value)) (k : String)
    (h : dictGet l₁ k = none) : dictGet (l₁ ++ l₂) k = dictGet l₂ k := by
  induction l₁ with
  | nil => simp
  | cons p rest ih =>
    obtain ⟨a, b⟩ := p
    by_cases hp : a = k
    · simp [dictGet, hp] at h
    · simp [dictGet, hp] at h ⊢
      exact ih h

/-- Replacing the first occurrence of a key yields a list in which that key
now maps to the new value. -/
theorem dictGet_replaceFirst (l : List (String × Value)) (k : String) (v w : Value)
    (h : dictGet l k = some v) : dictGet (replaceFirst l k w) k = some w := by
  induction l with
  | nil => simp [dictGet] at h
  | cons p rest ih =>
    obtain ⟨a, b⟩ := p
    by_cases hp : a = k
    · simp [dictGet, replaceFirst, hp]
    · simp [dictGet, replaceFirst, hp] at h ⊢
      exact ih h

/-- Replacing the first occurrence of a key with the value it already holds
is a no-op. -/
theorem replaceFirst_self (l : List (String × Value)) (k : String) (v : Value)
    (h : dictGet l k = some v) : replaceFirst l k v = l := by
  induction l with
  | nil => simp [dictGet] at h
  | cons p rest ih =>
    obtain ⟨a, b⟩ := p
    by_cases hp : a = k
    · simp [dictGet, hp] at h
      simp [replaceFirst, hp, h]
    · simp [dictGet, hp] at h
      simp [replaceFirst, hp, ih h]

/-- Replacement skips a left part that does not contain the key. -/
theorem replaceFirst_append_right (l₁ l₂ : List (String × Value)) (k : String) (w : Value)
    (h : dictGet l₁ k = none) :
    replaceFirst (l₁ ++ l₂) k w = l₁ ++ replaceFirst l₂ k w := by
  induction l₁ with
  | nil => simp
  | cons p rest ih =>
    obtain ⟨a, b⟩ := p
    by_cases hp : a = k
    · simp [dictGet, hp] at h
    · simp [dictGet, hp] at h
      simp [replaceFirst, hp, ih h]

/-- Both injected records carry a comment matching the markers. -/
theorem has_vmm_patch_sequoia : has_vmm_patch [sequoiaPatch1, sequoiaPatch2] = true := by
  decide

/-- Appending the two injected records to any catalog makes the marker
check succeed. -/
theorem has_vmm_patch_append_sequoia (ps : List Value) :
    has_vmm_patch (ps ++ [sequoiaPatch1, sequoiaPatch2]) = true := by
  have h := has_vmm_patch_sequoia
  simp [has_vmm_patch, List.any_append] at h ⊢
  exact Or.inr h

/-- On a non-dictionary value `patchKernelValue` is the identity. -/
theorem patchKernelValue_non_dict (v : Value)
    (hv : ∀ kd, v ≠ Value.dictionary kd) : patchKernelValue v = v := by
  cases v <;> simp [patchKernelValue]
  exact absurd rfl (hv _)

/-- With no "Patch" key, the function inserts a fresh array holding
exactly the two injected records. -/
theorem patchKernelValue_no_patch (kd : List (String × Value))
    (hp : dictGet kd "Patch" = none) :
    patchKernelValue (Value.dictionary kd) =
      Value.dictionary (kd ++ [("Patch", Value.array [sequoiaPatch1, sequoiaPatch2])]) := by
  have h1 : dictGet (kd ++ [("Patch", Value.array [])]) "Patch" = some (Value.array []) := by
    rw [dictGet_append_right _ _ _ hp]; rfl
  have h2 : replaceFirst (kd ++ [("Patch", Value.array [])]) "Patch"
      (Value.array [sequoiaPatch1, sequoiaPatch2]) =
      kd ++ [("Patch", Value.array [sequoiaPatch1, sequoiaPatch2])] := by
    rw [replaceFirst_append_right _ _ _ _ hp]; rfl
  simp [patchKernelValue, hp, h1, has_vmm_patch, h2]

/-- With an existing "Patch" array containing no marker-matching record,
the function appends the two injected records to it. -/
theorem patchKernelValue_existing (kd : List (String × Value)) (ps : List Value)
    (hp : dictGet kd "Patch" = some (Value.array ps))
    (hv : has_vmm_patch ps = false) :
    patchKernelValue (Value.dictionary kd) =
      Value.dictionary
        (replaceFirst kd "Patch" (Value.array (ps ++ [sequoiaPatch1, sequoiaPatch2]))) := by
  simp [patchKernelValue, hp, hv]

/-- With an existing "Patch" array already containing a marker-matching
record, the function changes nothing. -/
theorem patchKernelValue_already (kd : List (String × Value)) (ps : List Value)
    (hp : dictGet kd "Patch" = some (Value.array ps))
    (hv : has_vmm_patch ps = true) :
    patchKernelValue (Value.dictionary kd) = Value.dictionary kd := by
  simp [patchKernelValue, hp, hv]

/-- With a "Patch" value that is not an array, the function changes
nothing. -/
theorem patchKernelValue_non_array (kd : List (String × Value)) (w : Value)
    (hp : dictGet kd "Patch" = some w)
    (hw : ∀ ps, w ≠ Value.array ps) :
    patchKernelValue (Value.dictionary kd) = Value.dictionary kd := by
  cases w <;> simp [patchKernelValue, hp]
  exact absurd rfl (hw _)

/-- The patch injection never touches the typed platform-identity part of
the document. -/
theorem add_patches_platform_info (m : MacPlist) :
    m.add_sequoia_kernel_patches.platform_info = m.platform_info := by
  cases h : dictGet m.other "Kernel" <;>
    simp [MacPlist.add_sequoia_kernel_patches, h]

/-- Applying the kernel-value transformation twice equals applying it
once: the second application always finds a marker-matching record. -/
theorem patchKernelValue_idem (v : Value) :
    patchKernelValue (patchKernelValue v) = patchKernelValue v := by
  cases v with
  | dictionary kd =>
    cases hp : dictGet kd "Patch" with
    | none =>
      rw [patchKernelValue_no_patch kd hp]
      have h1 : dictGet (kd ++ [("Patch", Value.array [sequoiaPatch1, sequoiaPatch2])]) "Patch"
          = some (Value.array [sequoiaPatch1, sequoiaPatch2]) := by
        rw [dictGet_append_right _ _ _ hp]; rfl
      exact patchKernelValue_already _ _ h1 has_vmm_patch_sequoia
    | some w =>
      cases w with
      | array ps =>
        cases hv : has_vmm_patch ps with
        | true =>
          have h1 := patchKernelValue_already kd ps hp hv
          rw [h1, h1]
        | false =>
          rw [patchKernelValue_existing kd ps hp hv]
          have h1 := dictGet_replaceFirst kd "Patch" _
            (Value.array (ps ++ [sequoiaPatch1, sequoiaPatch2])) hp
          exact patchKernelValue_already _ _ h1 (has_vmm_patch_append_sequoia ps)
      | string s =>
        have h1 := patchKernelValue_non_array kd _ hp (fun ps h => Value.noConfusion h)
        rw [h1, h1]
      | integer n =>
        have h1 := patchKernelValue_non_array kd _ hp (fun ps h => Value.noConfusion h)
        rw [h1, h1]
      | boolean b =>
        have h1 := patchKernelValue_non_array kd _ hp (fun ps h => Value.noConfusion h)
        rw [h1, h1]
      | data bs =>
        have h1 := patchKernelValue_non_array kd _ hp (fun ps h => Value.noConfusion h)
        rw [h1, h1]
      | dictionary kd2 =>
        have h1 := patchKernelValue_non_array kd _ hp (fun ps h => Value.noConfusion h)
        rw [h1, h1]
  | string s => rfl
  | integer n => rfl
  | boolean b => rfl
  | data bs => rfl
  | array xs => rfl

/-- The value inserted under "Kernel" when the key was missing. -/
theorem patchKernelValue_empty_dict :
    patchKernelValue (Value.dictionary []) =
      Value.dictionary [("Patch", Value.array [sequoiaPatch1, sequoiaPatch2])] := by
  have h := patchKernelValue_no_patch [] rfl
  simpa using h

/-- Calling `add_sequoia_kernel_patches` twice equals calling it once: the
internal marker check of the second call always fires. -/
theorem add_sequoia_idem (m : MacPlist) :
    m.add_sequoia_kernel_patches.add_sequoia_kernel_patches =
      m.add_sequoia_kernel_patches := by
  cases h : dictGet m.other "Kernel" with
  | none =>
    have e1 : m.add_sequoia_kernel_patches =
        { m with other := m.other ++ [("Kernel", patchKernelValue (Value.dictionary []))] } := by
      simp [MacPlist.add_sequoia_kernel_patches, h]
    rw [e1]
    have h2 : dictGet (m.other ++ [("Kernel", patchKernelValue (Value.dictionary []))]) "Kernel"
        = some (patchKernelValue (Value.dictionary [])) := by
      rw [dictGet_append_right _ _ _ h]; rfl
    simp [MacPlist.add_sequoia_kernel_patches, h2, patchKernelValue_idem,
          replaceFirst_self _ _ _ h2]
  | some v =>
    have e1 : m.add_sequoia_kernel_patches =
        { m with other := replaceFirst m.other "Kernel" (patchKernelValue v) } := by
      simp [MacPlist.add_sequoia_kernel_patches, h]
    rw [e1]
    have h2 : dictGet (replaceFirst m.other "Kernel" (patchKernelValue v)) "Kernel"
        = some (patchKernelValue v) := dictGet_replaceFirst _ _ _ _ h
    simp [MacPlist.add_sequoia_kernel_patches, h2, patchKernelValue_idem,
          replaceFirst_self _ _ _ h2]

/-- A generic-identity block used by the concrete example documents. -/
def exampleGeneric : Generic :=
  { mlb := "C02MLB000001"
    rom := Value.data [0, 1, 2, 3, 4, 5, 6, 7, 8, 9, 10, 11]
    system_product_name := "MacPro7,1"
    system_serial_number := "C02SERIAL001"
    system_uuid := "00000000-0000-0000-0000-000000000000"
    other := [] }

/-- Example document with no "Kernel" key at all. -/
def docNoKernel : MacPlist :=
  { platform_info := { generic := exampleGeneric, other := [] }
    other := [("Misc", Value.boolean true)] }

/-- Example document whose "Kernel" key holds a non-dictionary value. -/
def docKernelString : MacPlist :=
  { platform_info := { generic := exampleGeneric, other := [] }
    other := [("Kernel", Value.string "broken")] }

/-- Example document with an existing patch catalog holding one
non-matching record. -/
def docKernelWithPatches : MacPlist :=
  { platform_info := { generic := exampleGeneric, other := [] }
    other := [("Kernel", Value.dictionary
      [("Patch", Value.array
        [Value.dictionary [("Comment", Value.string "unrelated existing patch")]])])] }

/-- C2: injecting into a document with no "Kernel" section creates exactly
one catalog list holding the two records in order; with a "Kernel"
dictionary lacking "Patch" the fresh list again holds exactly the two
records; with an existing catalog free of marker-matching records the old
records stay first, unchanged and in order, and the two records are
appended at the end. -/
theorem c2_inject_patch_catalog (m : MacPlist) :
    (dictGet m.other "Kernel" = none →
      m.add_sequoia_kernel_patches.other =
        m.other ++ [("Kernel",
          Value.dictionary [("Patch", Value.array [sequoiaPatch1, sequoiaPatch2])])]) ∧
    (∀ kd, dictGet m.other "Kernel" = some (Value.dictionary kd) →
      dictGet kd "Patch" = none →
      m.add_sequoia_kernel_patches.patch_catalog = some [sequoiaPatch1, sequoiaPatch2]) ∧
    (∀ kd ps, dictGet m.other "Kernel" = some (Value.dictionary kd) →
      dictGet kd "Patch" = some (Value.array ps) →
      has_vmm_patch ps = false →
      m.add_sequoia_kernel_patches.patch_catalog =
        some (ps ++ [sequoiaPatch1, sequoiaPatch2])) := by
  refine ⟨?_, ?_, ?_⟩
  · intro h
    simp [MacPlist.add_sequoia_kernel_patches, h, patchKernelValue_empty_dict]
  · intro kd hk hp
    have hpk := patchKernelValue_no_patch kd hp
    have e1 : m.add_sequoia_kernel_patches.other =
        replaceFirst m.other "Kernel"
          (Value.dictionary (kd ++ [("Patch", Value.array [sequoiaPatch1, sequoiaPatch2])])) := by
      simp [MacPlist.add_sequoia_kernel_patches, hk, hpk]
    have h2 : dictGet m.add_sequoia_kernel_patches.other "Kernel" =
        some (Value.dictionary (kd ++ [("Patch", Value.array [sequoiaPatch1, sequoiaPatch2])])) := by
      rw [e1]; exact dictGet_replaceFirst _ _ _ _ hk
    have h3 : dictGet (kd ++ [("Patch", Value.array [sequoiaPatch1, sequoiaPatch2])]) "Patch"
        = some (Value.array [sequoiaPatch1, sequoiaPatch2]) := by
      rw [dictGet_append_right _ _ _ hp]; rfl
    simp [MacPlist.patch_catalog, h2, h3]
  · intro kd ps hk hp hv
    have hpk := patchKernelValue_existing kd ps hp hv
    have e1 : m.add_sequoia_kernel_patches.other =
        replaceFirst m.other "Kernel"
          (Value.dictionary
            (replaceFirst kd "Patch" (Value.array (ps ++ [sequoiaPatch1, sequoiaPatch2])))) := by
      simp [MacPlist.add_sequoia_kernel_patches, hk, hpk]
    have h2 : dictGet m.add_sequoia_kernel_patches.other "Kernel" =
        some (Value.dictionary
          (replaceFirst kd "Patch" (Value.array (ps ++ [sequoiaPatch1, sequoiaPatch2])))) := by
      rw [e1]; exact dictGet_replaceFirst _ _ _ _ hk
    have h3 := dictGet_replaceFirst kd "Patch" _
      (Value.array (ps ++ [sequoiaPatch1, sequoiaPatch2])) hp
    simp [MacPlist.patch_catalog, h2, h3]

/-- Witness for C2 at two concrete documents. -/
theorem c2_inject_patch_catalog_witness :
    docNoKernel.add_sequoia_kernel_patches.other =
      docNoKernel.other ++ [("Kernel",
        Value.dictionary [("Patch", Value.array [sequoiaPatch1, sequoiaPatch2])])] ∧
    docKernelWithPatches.add_sequoia_kernel_patches.patch_catalog =
      some ([Value.dictionary [("Comment", Value.string "unrelated existing patch")]] ++
        [sequoiaPatch1, sequoiaPatch2]) :=
  ⟨(c2_inject_patch_catalog docNoKernel).1 rfl,
   (c2_inject_patch_catalog docKernelWithPatches).2.2 _
     [Value.dictionary [("Comment", Value.string "unrelated existing patch")]]
     rfl rfl (by decide)⟩

/-- C3 counterexample: a document whose "Kernel" key holds a string has no
marker-matching record, yet `has_sequoia_patches` is still false after
`add_sequoia_kernel_patches`, because the injection silently skips a
non-dictionary "Kernel" value. -/
theorem c3_counterexample_kernel_not_dict :
    docKernelString.has_sequoia_patches = false ∧
    docKernelString.add_sequoia_kernel_patches.has_sequoia_patches = false := by
  constructor <;> rfl

/-- C3 (amended): on a document whose "Kernel" value, when present, is a
dictionary and whose "Patch" value inside it, when present, is an array,
`has_sequoia_patches` is false before injection and true after. -/
theorem c3_patches_detected_after_injection (m : MacPlist)
    (hwf : ∀ v, dictGet m.other "Kernel" = some v → ∃ kd, v = Value.dictionary kd ∧
      (∀ w, dictGet kd "Patch" = some w → ∃ ps, w = Value.array ps))
    (hno : m.has_sequoia_patches = false) :
    m.add_sequoia_kernel_patches.has_sequoia_patches = true := by
  cases hk : dictGet m.other "Kernel" with
  | none =>
    have e1 : m.add_sequoia_kernel_patches.other =
        m.other ++ [("Kernel",
          Value.dictionary [("Patch", Value.array [sequoiaPatch1, sequoiaPatch2])])] := by
      simp [MacPlist.add_sequoia_kernel_patches, hk, patchKernelValue_empty_dict]
    have h2 : dictGet m.add_sequoia_kernel_patches.other "Kernel" =
        some (Value.dictionary [("Patch", Value.array [sequoiaPatch1, sequoiaPatch2])]) := by
      rw [e1, dictGet_append_right _ _ _ hk]; rfl
    simp [MacPlist.has_sequoia_patches, h2, dictGet, has_vmm_patch_sequoia]
  | some v =>
    obtain ⟨kd, rfl, hwp⟩ := hwf v hk
    cases hp : dictGet kd "Patch" with
    | none =>
      have hpk := patchKernelValue_no_patch kd hp
      have e1 : m.add_sequoia_kernel_patches.other =
          replaceFirst m.other "Kernel"
            (Value.dictionary (kd ++ [("Patch", Value.array [sequoiaPatch1, sequoiaPatch2])])) := by
        simp [MacPlist.add_sequoia_kernel_patches, hk, hpk]
      have h2 : dictGet m.add_sequoia_kernel_patches.other "Kernel" =
          some (Value.dictionary (kd ++ [("Patch", Value.array [sequoiaPatch1, sequoiaPatch2])])) := by
        rw [e1]; exact dictGet_replaceFirst _ _ _ _ hk
      have h3 : dictGet (kd ++ [("Patch", Value.array [sequoiaPatch1, sequoiaPatch2])]) "Patch"
          = some (Value.array [sequoiaPatch1, sequoiaPatch2]) := by
        rw [dictGet_append_right _ _ _ hp]; rfl
      simp [MacPlist.has_sequoia_patches, h2, h3, has_vmm_patch_sequoia]
    | some w =>
      obtain ⟨ps, rfl⟩ := hwp w hp
      have hv : has_vmm_patch ps = false := by
        simpa [MacPlist.has_sequoia_patches, hk, hp] using hno
      have hpk := patchKernelValue_existing kd ps hp hv
      have e1 : m.add_sequoia_kernel_patches.other =
          replaceFirst m.other "Kernel"
            (Value.dictionary
              (replaceFirst kd "Patch" (Value.array (ps ++ [sequoiaPatch1, sequoiaPatch2])))) := by
        simp [MacPlist.add_sequoia_kernel_patches, hk, hpk]
      have h2 : dictGet m.add_sequoia_kernel_patches.other "Kernel" =
          some (Value.dictionary
            (replaceFirst kd "Patch" (Value.array (ps ++ [sequoiaPatch1, sequoiaPatch2])))) := by
        rw [e1]; exact dictGet_replaceFirst _ _ _ _ hk
      have h3 := dictGet_replaceFirst kd "Patch" _
        (Value.array (ps ++ [sequoiaPatch1, sequoiaPatch2])) hp
      simp [MacPlist.has_sequoia_patches, h2, h3, has_vmm_patch_append_sequoia]

/-- Witness for the amended C3 at a concrete document. -/
theorem c3_patches_detected_after_injection_witness :
    docKernelWithPatches.add_sequoia_kernel_patches.has_sequoia_patches = true :=
  c3_patches_detected_after_injection docKernelWithPatches
    (by
      intro v hv
      refine ⟨[("Patch", Value.array
        [Value.dictionary [("Comment", Value.string "unrelated existing patch")]])], ?_, ?_⟩
      · cases hv; rfl
      · intro w hw
        refine ⟨[Value.dictionary [("Comment", Value.string "unrelated existing patch")]], ?_⟩
        cases hw; rfl)
    (by decide)

/-- C4 counterexample: there is no document on which two unconditional
calls of `add_sequoia_kernel_patches` differ from one call, so no
document ever receives duplicate records from a double call. -/
theorem c4_counterexample_no_duplicates :
    (∃ m : MacPlist, m.add_sequoia_kernel_patches.add_sequoia_kernel_patches ≠
      m.add_sequoia_kernel_patches) = False :=
  eq_false (fun ⟨m, hm⟩ => hm (add_sequoia_idem m))

/-- C4 (amended): `add_sequoia_kernel_patches` is idempotent on its own;
its internal marker check (src/plist_data.rs lines 76-86) suppresses the
append on a second call, so no caller-side guard is needed to avoid
duplicate records. -/
theorem c4_add_patches_idempotent (m : MacPlist) :
    m.add_sequoia_kernel_patches.add_sequoia_kernel_patches =
      m.add_sequoia_kernel_patches :=
  add_sequoia_idem m

/-- C10: when the "Kernel" value is not a dictionary, or its "Patch" value
is not an array, `add_sequoia_kernel_patches` is a silent no-op leaving
the document unchanged, and `has_sequoia_patches` is false. -/
theorem c10_malformed_kernel_noop (m : MacPlist) (v : Value)
    (hk : dictGet m.other "Kernel" = some v)
    (hbad : (∀ kd, v ≠ Value.dictionary kd) ∨
      (∃ kd w, v = Value.dictionary kd ∧ dictGet kd "Patch" = some w ∧
        ∀ ps, w ≠ Value.array ps)) :
    m.add_sequoia_kernel_patches = m ∧ m.has_sequoia_patches = false := by
  rcases hbad with hnd | ⟨kd, w, rfl, hp, hw⟩
  · constructor
    · have hpk := patchKernelValue_non_dict v hnd
      simp [MacPlist.add_sequoia_kernel_patches, hk, hpk, replaceFirst_self _ _ _ hk]
    · cases v with
      | dictionary kd => exact absurd rfl (hnd kd)
      | string s => simp [MacPlist.has_sequoia_patches, hk]
      | integer n => simp [MacPlist.has_sequoia_patches, hk]
      | boolean b => simp [MacPlist.has_sequoia_patches, hk]
      | data bs => simp [MacPlist.has_sequoia_patches, hk]
      | array xs => simp [MacPlist.has_sequoia_patches, hk]
  · constructor
    · have hpk := patchKernelValue_non_array kd w hp hw
      simp [MacPlist.add_sequoia_kernel_patches, hk, hpk, replaceFirst_self _ _ _ hk]
    · cases w with
      | array ps => exact absurd rfl (hw ps)
      | string s => simp [MacPlist.has_sequoia_patches, hk, hp]
      | integer n => simp [MacPlist.has_sequoia_patches, hk, hp]
      | boolean b => simp [MacPlist.has_sequoia_patches, hk, hp]
      | data bs => simp [MacPlist.has_sequoia_patches, hk, hp]
      | dictionary _ => simp [MacPlist.has_sequoia_patches, hk, hp]

/-- Witness for C10: the document whose "Kernel" value is a string is
left untouched. -/
theorem c10_malformed_kernel_noop_witness :
    docKernelString.add_sequoia_kernel_patches = docKernelString ∧
    docKernelString.has_sequoia_patches = false :=
  c10_malformed_kernel_noop docKernelString (Value.string "broken") rfl
    (Or.inl (fun _ h => Value.noConfusion h))

/-- ASCII whitespace test used by the model of `str::trim`. -/
def isWsChar (c : Char) : Bool :=
  c == ' ' || c == '\t' || c == '\n' || c == '\r'

/-- Model of Rust `str::trim` over char lists (ASCII whitespace). -/
def trimChars (l : List Char) : List Char :=
  ((l.dropWhile isWsChar).reverse.dropWhile isWsChar).reverse

/-- ASCII lower-casing of one character. -/
def asciiLower (c : Char) : Char :=
  if 'A' ≤ c ∧ c ≤ 'Z' then Char.ofNat (c.toNat + 32) else c

/-- Model of Rust `str::eq_ignore_ascii_case`. -/
def eqIgnoreAsciiCase (a b : List Char) : Bool :=
  a.map asciiLower == b.map asciiLower

/-- The regeneration prompt of src/main.rs lines 61-69: the answer counts
as yes iff it trims to "y" or "yes" ignoring ASCII case. -/
def answers_yes (s : String) : Bool :=
  eqIgnoreAsciiCase (trimChars s.data) "y".data ||
  eqIgnoreAsciiCase (trimChars s.data) "yes".data

/-- The patch prompt of src/main.rs lines 130-138: empty input defaults to
yes. -/
def answers_yes_or_empty (s : String) : Bool :=
  (trimChars s.data).isEmpty ||
  eqIgnoreAsciiCase (trimChars s.data) "y".data ||
  eqIgnoreAsciiCase (trimChars s.data) "yes".data

/-- The command-line options of src/main.rs lines 212-231 that the
orchestration logic branches on. -/
structure Args where
  dry_run : Bool
  force_regenerate : Bool
  add_sequoia_patches : Bool
  force_sequoia_patches : Bool

/-- The external inputs of one run of `main` (src/main.rs lines 32-198):
the parsed document, the two interactive answers, and the outputs of the
identity generator and the random source, all supplied by collaborators
outside this repository's mutation logic. -/
structure RunInput where
  plist : MacPlist
  regen_answer : String
  patch_answer : String
  gen_serial : String
  gen_mlb : String
  gen_uuid : String
  gen_rom : List Nat

/-- The observable outcome of one run of `main`: `written = some d` iff
the truncate-seek-serialize-flush sequence of src/main.rs lines 168-178
executed, with `d` the document it serialized; `none` iff the file was
never touched.  `reportedIdentity`/`reportedPatches` model the dry-run
"Would set ..." report of lines 141-155. -/
structure RunResult where
  written : Option MacPlist
  exitOk : Bool
  reportedIdentity : Option (String × String × String × List Nat)
  reportedPatches : Bool

/-- The `needs_update` computation of src/main.rs lines 51-73: with valid
serials and no force flag the user is asked (skipped under dry-run, where
the default is keep); otherwise regeneration is required. -/
def needsUpdateOf (args : Args) (plist : MacPlist) (regen_answer : String) : Bool :=
  if plist.has_valid_serials && !args.force_regenerate then
    if !args.dry_run then answers_yes regen_answer else false
  else true

/-- The patch decision of src/main.rs lines 114-139: returns the possibly
patched document and the `patches_added` flag. -/
def patchDecision (args : Args) (plist : MacPlist) (patch_answer : String) : MacPlist × Bool :=
  if args.add_sequoia_patches || args.force_sequoia_patches then
    if !plist.has_sequoia_patches || args.force_sequoia_patches then
      (plist.add_sequoia_kernel_patches, true)
    else (plist, false)
  else if !plist.has_sequoia_patches then
    if answers_yes_or_empty patch_answer then (plist.add_sequoia_kernel_patches, true)
    else (plist, false)
  else (plist, false)

/-- The orchestration logic of `main` (src/main.rs lines 32-198) over the
abstracted inputs: decide on identity regeneration, decide on patches,
then either report (dry run), write back the mutated document, or do
nothing. -/
def mainRun (args : Args) (inp : RunInput) : RunResult :=
  let needs_update := needsUpdateOf args inp.plist inp.regen_answer
  let serial_number := if needs_update then inp.gen_serial else inp.plist.get_serial_number
  let board_serial := if needs_update then inp.gen_mlb else inp.plist.get_mlb
  let uuid := inp.gen_uuid
  let rom := if needs_update then inp.gen_rom else List.replicate 12 0
  let pd := patchDecision args inp.plist inp.patch_answer
  if args.dry_run then
    { written := none
      exitOk := true
      reportedIdentity :=
        if needs_update then some (serial_number, board_serial, uuid, rom) else none
      reportedPatches := pd.2 }
  else if needs_update || pd.2 then
    { written := some (if needs_update then
        (((pd.1.set_serial_number serial_number).set_mlb board_serial).set_uuid
          uuid).set_rom rom
      else pd.1)
      exitOk := true
      reportedIdentity := none
      reportedPatches := pd.2 }
  else
    { written := none, exitOk := true, reportedIdentity := none, reportedPatches := false }

/-- The byte table of src/main.rs line 30, `b"01234556789abcdef"`, from
which the six ROM suffix bytes are drawn uniformly by index. -/
def HEX_DIGITS : List Nat :=
  "01234556789abcdef".data.map Char.toNat

/-- The patch decision never touches the typed platform-identity part of
the document. -/
theorem patchDecision_fst_platform_info (args : Args) (p : MacPlist) (ans : String) :
    (patchDecision args p ans).1.platform_info = p.platform_info := by
  unfold patchDecision
  split
  · split
    · exact add_patches_platform_info p
    · rfl
  · split
    · split
      · exact add_patches_platform_info p
      · rfl
    · rfl

/-- Example document whose catalog already holds a marker-matching
record. -/
def docSequoiaPresent : MacPlist :=
  { platform_info := { generic := exampleGeneric, other := [] }
    other := [("Kernel", Value.dictionary
      [("Patch", Value.array [Value.dictionary
        [("Comment", Value.string
          "Disable VM detection (kern.hv_vmm_present -> hibernatecount) for Sequoia")]])])] }

/-- Example document carrying both placeholder sentinels. -/
def docPlaceholder : MacPlist :=
  { platform_info :=
      { generic :=
          { exampleGeneric with
            system_serial_number := "NO_DEVICE_SN",
            mlb := "NO_LOGIC_BOARD_SN" },
        other := [] },
    other := [] }

/-- C5: with `force_sequoia_patches` set, on a document already holding a
marker-matching record, the orchestrator takes the forced branch and
calls `add_sequoia_kernel_patches`, but the call's internal marker check
makes it a no-op: the written document equals the input document and no
records are appended, contradicting the forced-reinjection claim. -/
theorem c5_force_flag_does_not_reinject :
    docSequoiaPresent.has_sequoia_patches = true ∧
    docSequoiaPresent.add_sequoia_kernel_patches = docSequoiaPresent ∧
    (mainRun
      { dry_run := false, force_regenerate := false,
        add_sequoia_patches := false, force_sequoia_patches := true }
      { plist := docSequoiaPresent, regen_answer := "n", patch_answer := "",
        gen_serial := "GENSN", gen_mlb := "GENMLB",
        gen_uuid := "11111111-1111-1111-1111-111111111111",
        gen_rom := [] }).written = some docSequoiaPresent := by
  refine ⟨by decide, rfl, rfl⟩

/-- C6: under dry run nothing is ever written and the run succeeds; when
the stored identity is invalid the identity that would be set is
reported, and when patch injection was requested and not yet present the
patch addition is reported. -/
theorem c6_dry_run_frame (args : Args) (inp : RunInput)
    (hdry : args.dry_run = true) :
    (mainRun args inp).written = none ∧
    (mainRun args inp).exitOk = true ∧
    (inp.plist.has_valid_serials = false →
      (mainRun args inp).reportedIdentity =
        some (inp.gen_serial, inp.gen_mlb, inp.gen_uuid, inp.gen_rom)) ∧
    (args.add_sequoia_patches = true → inp.plist.has_sequoia_patches = false →
      (mainRun args inp).reportedPatches = true) := by
  refine ⟨by simp [mainRun, hdry], by simp [mainRun, hdry], ?_, ?_⟩
  · intro hinv
    have hnu : needsUpdateOf args inp.plist inp.regen_answer = true := by
      simp [needsUpdateOf, hinv]
    simp [mainRun, hdry, hnu]
  · intro hadd hnos
    have hpd : (patchDecision args inp.plist inp.patch_answer).2 = true := by
      simp [patchDecision, hadd, hnos]
    simp [mainRun, hdry, hpd]

/-- Witness for C6 at a concrete placeholder-identity document. -/
theorem c6_dry_run_frame_witness :
    (mainRun
      { dry_run := true, force_regenerate := false,
        add_sequoia_patches := true, force_sequoia_patches := false }
      { plist := docPlaceholder, regen_answer := "", patch_answer := "",
        gen_serial := "GENSN", gen_mlb := "GENMLB",
        gen_uuid := "11111111-1111-1111-1111-111111111111",
        gen_rom := [48, 49, 50, 51, 52, 53] }).written = none ∧
    (mainRun
      { dry_run := true, force_regenerate := false,
        add_sequoia_patches := true, force_sequoia_patches := false }
      { plist := docPlaceholder, regen_answer := "", patch_answer := "",
        gen_serial := "GENSN", gen_mlb := "GENMLB",
        gen_uuid := "11111111-1111-1111-1111-111111111111",
        gen_rom := [48, 49, 50, 51, 52, 53] }).exitOk = true ∧
    (docPlaceholder.has_valid_serials = false →
      (mainRun
        { dry_run := true, force_regenerate := false,
          add_sequoia_patches := true, force_sequoia_patches := false }
        { plist := docPlaceholder, regen_answer := "", patch_answer := "",
          gen_serial := "GENSN", gen_mlb := "GENMLB",
          gen_uuid := "11111111-1111-1111-1111-111111111111",
          gen_rom := [48, 49, 50, 51, 52, 53] }).reportedIdentity =
        some ("GENSN", "GENMLB", "11111111-1111-1111-1111-111111111111",
          [48, 49, 50, 51, 52, 53])) ∧
    (true = true → docPlaceholder.has_sequoia_patches = false →
      (mainRun
        { dry_run := true, force_regenerate := false,
          add_sequoia_patches := true, force_sequoia_patches := false }
        { plist := docPlaceholder, regen_answer := "", patch_answer := "",
          gen_serial := "GENSN", gen_mlb := "GENMLB",
          gen_uuid := "11111111-1111-1111-1111-111111111111",
          gen_rom := [48, 49, 50, 51, 52, 53] }).reportedPatches = true) :=
  c6_dry_run_frame
    { dry_run := true, force_regenerate := false,
      add_sequoia_patches := true, force_sequoia_patches := false }
    { plist := docPlaceholder, regen_answer := "", patch_answer := "",
      gen_serial := "GENSN", gen_mlb := "GENMLB",
      gen_uuid := "11111111-1111-1111-1111-111111111111",
      gen_rom := [48, 49, 50, 51, 52, 53] }
    rfl

/-- C7: when valid serials exist, regeneration is not forced, and the
user declines or the run is non-interactive (dry run), the document state
after the run keeps all four identity fields unchanged, even when kernel
patches are added in the same run. -/
theorem c7_keep_identity_frame (args : Args) (inp : RunInput)
    (hvalid : inp.plist.has_valid_serials = true)
    (hforce : args.force_regenerate = false)
    (hkeep : args.dry_run = true ∨ answers_yes inp.regen_answer = false) :
    ((mainRun args inp).written.getD inp.plist).get_serial_number =
      inp.plist.get_serial_number ∧
    ((mainRun args inp).written.getD inp.plist).get_mlb = inp.plist.get_mlb ∧
    ((mainRun args inp).written.getD inp.plist).platform_info.generic.system_uuid =
      inp.plist.platform_info.generic.system_uuid ∧
    ((mainRun args inp).written.getD inp.plist).platform_info.generic.rom =
      inp.plist.platform_info.generic.rom := by
  have hnu : needsUpdateOf args inp.plist inp.regen_answer = false := by
    rcases hkeep with hd | ha
    · simp [needsUpdateOf, hvalid, hforce, hd]
    · simp [needsUpdateOf, hvalid, hforce, ha]
  have hpi := patchDecision_fst_platform_info args inp.plist inp.patch_answer
  have hres : ((mainRun args inp).written.getD inp.plist).platform_info =
      inp.plist.platform_info := by
    cases hdr : args.dry_run with
    | true => simp [mainRun, hdr]
    | false =>
      cases hpd : (patchDecision args inp.plist inp.patch_answer).2 with
      | true => simp [mainRun, hdr, hnu, hpd, hpi]
      | false => simp [mainRun, hdr, hnu, hpd]
  exact ⟨by simp [MacPlist.get_serial_number, hres],
         by simp [MacPlist.get_mlb, hres],
         by simp [hres], by simp [hres]⟩

/-- Witness for C7: patches are added while the existing identity is
kept. -/
theorem c7_keep_identity_frame_witness :
    ((mainRun
      { dry_run := false, force_regenerate := false,
        add_sequoia_patches := true, force_sequoia_patches := false }
      { plist := docNoKernel, regen_answer := "n", patch_answer := "",
        gen_serial := "GENSN", gen_mlb := "GENMLB",
        gen_uuid := "11111111-1111-1111-1111-111111111111",
        gen_rom := [48, 49, 50, 51, 52, 53] }).written.getD docNoKernel).get_serial_number =
      docNoKernel.get_serial_number ∧
    ((mainRun
      { dry_run := false, force_regenerate := false,
        add_sequoia_patches := true, force_sequoia_patches := false }
      { plist := docNoKernel, regen_answer := "n", patch_answer := "",
        gen_serial := "GENSN", gen_mlb := "GENMLB",
        gen_uuid := "11111111-1111-1111-1111-111111111111",
        gen_rom := [48, 49, 50, 51, 52, 53] }).written.getD docNoKernel).get_mlb =
      docNoKernel.get_mlb ∧
    ((mainRun
      { dry_run := false, force_regenerate := false,
        add_sequoia_patches := true, force_sequoia_patches := false }
      { plist := docNoKernel, regen_answer := "n", patch_answer := "",
        gen_serial := "GENSN", gen_mlb := "GENMLB",
        gen_uuid := "11111111-1111-1111-1111-111111111111",
        gen_rom := [48, 49, 50, 51, 52, 53] }).written.getD
          docNoKernel).platform_info.generic.system_uuid =
      docNoKernel.platform_info.generic.system_uuid ∧
    ((mainRun
      { dry_run := false, force_regenerate := false,
        add_sequoia_patches := true, force_sequoia_patches := false }
      { plist := docNoKernel, regen_answer := "n", patch_answer := "",
        gen_serial := "GENSN", gen_mlb := "GENMLB",
        gen_uuid := "11111111-1111-1111-1111-111111111111",
        gen_rom := [48, 49, 50, 51, 52, 53] }).written.getD
          docNoKernel).platform_info.generic.rom =
      docNoKernel.platform_info.generic.rom :=
  c7_keep_identity_frame
    { dry_run := false, force_regenerate := false,
      add_sequoia_patches := true, force_sequoia_patches := false }
    { plist := docNoKernel, regen_answer := "n", patch_answer := "",
      gen_serial := "GENSN", gen_mlb := "GENMLB",
      gen_uuid := "11111111-1111-1111-1111-111111111111",
      gen_rom := [48, 49, 50, 51, 52, 53] }
    (by decide) rfl (Or.inr (by decide))

/-- C8: the byte table the six ROM suffix bytes are drawn from has 17
entries, with the digit '5' appearing twice and '4' once; a uniform draw
over its indices therefore gives '5' probability 2/17 and '4'
probability 1/17, so the suffix bytes are not uniform over the 16
hexadecimal digits. -/
theorem c8_hex_digits_table_skewed :
    HEX_DIGITS.length = 17 ∧
    HEX_DIGITS.count ('5'.toNat) = 2 ∧
    HEX_DIGITS.count ('4'.toNat) = 1 ∧
    HEX_DIGITS ≠ "0123456789abcdef".data.map Char.toNat := by
  refine ⟨by decide, by decide, by decide, by decide⟩

/-- The five field keys of the `Generic` struct under serde PascalCase
renaming (src/plist_data.rs lines 154-167). -/
def genericKeys : List String :=
  ["MLB", "ROM", "SystemProductName", "SystemSerialNumber", "SystemUUID"]

/-- Drop every entry whose key is in `ks`; serde flatten collects exactly
the keys not consumed by the named fields. -/
def removeKeys (d : List (String × Value)) (ks : List String) : List (String × Value) :=
  d.filter (fun p => !(ks.contains p.1))

/-- Serialization of `Generic` under its serde derive: named fields first
in declaration order under their renamed keys, then the flattened bag. -/
def serializeGeneric (g : Generic) : Value :=
  Value.dictionary
    ([("MLB", Value.string g.mlb),
      ("ROM", g.rom),
      ("SystemProductName", Value.string g.system_product_name),
      ("SystemSerialNumber", Value.string g.system_serial_number),
      ("SystemUUID", Value.string g.system_uuid)] ++ g.other)

/-- Deserialization of `Generic` under its serde derive: the five named
fields are taken from their keys and every other entry lands in the
flattened bag. -/
def parseGeneric (v : Value) : Option Generic :=
  match v with
  | Value.dictionary d =>
      match dictGet d "MLB", dictGet d "ROM", dictGet d "SystemProductName",
            dictGet d "SystemSerialNumber", dictGet d "SystemUUID" with
      | some (Value.string mlb), some rom, some (Value.string pn),
        some (Value.string sn), some (Value.string uu) =>
          some { mlb := mlb, rom := rom, system_product_name := pn,
                 system_serial_number := sn, system_uuid := uu,
                 other := removeKeys d genericKeys }
      | _, _, _, _, _ => none
  | _ => none

/-- Serialization of `PlatformInfo` under its serde derive. -/
def serializePlatformInfo (p : PlatformInfo) : Value :=
  Value.dictionary (("Generic", serializeGeneric p.generic) :: p.other)

/-- Deserialization of `PlatformInfo` under its serde derive. -/
def parsePlatformInfo (v : Value) : Option PlatformInfo :=
  match v with
  | Value.dictionary d =>
      match dictGet d "Generic" with
      | some gv =>
          match parseGeneric gv with
          | some g => some { generic := g, other := removeKeys d ["Generic"] }
          | none => none
      | none => none
  | _ => none

/-- Serialization of `MacPlist` under its serde derive. -/
def serializeMacPlist (m : MacPlist) : Value :=
  Value.dictionary (("PlatformInfo", serializePlatformInfo m.platform_info) :: m.other)

/-- Deserialization of `MacPlist` under its serde derive. -/
def parseMacPlist (v : Value) : Option MacPlist :=
  match v with
  | Value.dictionary d =>
      match dictGet d "PlatformInfo" with
      | some pv =>
          match parsePlatformInfo pv with
          | some p => some { platform_info := p, other := removeKeys d ["PlatformInfo"] }
          | none => none
      | none => none
  | _ => none

/-- Well-formedness of the generic passthrough bag: it holds none of the
five reserved field keys.  Documents produced by parsing satisfy this by
construction, since serde flatten only collects unconsumed keys. -/
def wfGeneric (g : Generic) : Prop :=
  removeKeys g.other genericKeys = g.other

/-- Well-formedness of the platform-info level. -/
def wfPlatformInfo (p : PlatformInfo) : Prop :=
  wfGeneric p.generic ∧ removeKeys p.other ["Generic"] = p.other

/-- Well-formedness of the whole document. -/
def wfMacPlist (m : MacPlist) : Prop :=
  wfPlatformInfo m.platform_info ∧ removeKeys m.other ["PlatformInfo"] = m.other

/-- Key removal distributes over append. -/
theorem removeKeys_append (l₁ l₂ : List (String × Value)) (ks : List String) :
    removeKeys (l₁ ++ l₂) ks = removeKeys l₁ ks ++ removeKeys l₂ ks := by
  simp [removeKeys]

/-- Round trip at the `Generic` level. -/
theorem parseGeneric_serializeGeneric (g : Generic) (h : wfGeneric g) :
    parseGeneric (serializeGeneric g) = some g := by
  have h' : removeKeys g.other genericKeys = g.other := h
  have h5 : removeKeys
      (("MLB", Value.string g.mlb) ::
        ("ROM", g.rom) ::
          ("SystemProductName", Value.string g.system_product_name) ::
            ("SystemSerialNumber", Value.string g.system_serial_number) ::
              ("SystemUUID", Value.string g.system_uuid) :: g.other) genericKeys
      = removeKeys g.other genericKeys := by
    simp [removeKeys, genericKeys]
  simp [parseGeneric, serializeGeneric, dictGet, h5, h']

/-- Round trip at the `PlatformInfo` level. -/
theorem parsePlatformInfo_serialize (p : PlatformInfo) (h : wfPlatformInfo p) :
    parsePlatformInfo (serializePlatformInfo p) = some p := by
  obtain ⟨hg, ho⟩ := h
  have hG := parseGeneric_serializeGeneric p.generic hg
  have h1 : removeKeys (("Generic", serializeGeneric p.generic) :: p.other) ["Generic"]
      = removeKeys p.other ["Generic"] := by
    simp [removeKeys]
  simp [parsePlatformInfo, serializePlatformInfo, dictGet, hG, h1, ho]

/-- Round trip at the `MacPlist` level. -/
theorem parseMacPlist_serialize (m : MacPlist) (h : wfMacPlist m) :
    parseMacPlist (serializeMacPlist m) = some m := by
  obtain ⟨hp, ho⟩ := h
  have hP := parsePlatformInfo_serialize m.platform_info hp
  have h1 : removeKeys
      (("PlatformInfo", serializePlatformInfo m.platform_info) :: m.other) ["PlatformInfo"]
      = removeKeys m.other ["PlatformInfo"] := by
    simp [removeKeys]
  simp [parseMacPlist, serializeMacPlist, dictGet, hP, h1, ho]

/-- The identity update of src/main.rs lines 160-165: the four setters
applied in sequence. -/
def applyIdentity (m : MacPlist) (sn mlb uuid : String) (rom : List Nat) : MacPlist :=
  (((m.set_serial_number sn).set_mlb mlb).set_uuid uuid).set_rom rom

/-- C9: setting the four identity fields and then serializing and parsing
reproduces exactly the document with those fields set; the identity
fields carry the set values, and the product name and the passthrough
bags at every level are exactly those of the pre-mutation document. -/
theorem c9_set_identity_roundtrip (m : MacPlist) (sn mlb uuid : String) (rom : List Nat)
    (h : wfMacPlist m) :
    parseMacPlist (serializeMacPlist (applyIdentity m sn mlb uuid rom)) =
      some (applyIdentity m sn mlb uuid rom) ∧
    (applyIdentity m sn mlb uuid rom).get_serial_number = sn ∧
    (applyIdentity m sn mlb uuid rom).get_mlb = mlb ∧
    (applyIdentity m sn mlb uuid rom).platform_info.generic.system_uuid = uuid ∧
    (applyIdentity m sn mlb uuid rom).platform_info.generic.rom = Value.data rom ∧
    (applyIdentity m sn mlb uuid rom).other = m.other ∧
    (applyIdentity m sn mlb uuid rom).platform_info.other = m.platform_info.other ∧
    (applyIdentity m sn mlb uuid rom).platform_info.generic.other =
      m.platform_info.generic.other ∧
    (applyIdentity m sn mlb uuid rom).get_product_name = m.get_product_name := by
  refine ⟨parseMacPlist_serialize _ ?_, rfl, rfl, rfl, rfl, rfl, rfl, rfl, rfl⟩
  exact h

/-- Witness for C9 at a concrete document and concrete identity values. -/
theorem c9_set_identity_roundtrip_witness :
    parseMacPlist (serializeMacPlist
      (applyIdentity docNoKernel "NEWSN" "NEWMLB"
        "22222222-2222-2222-2222-222222222222" [48, 49, 50, 51, 52, 53])) =
      some (applyIdentity docNoKernel "NEWSN" "NEWMLB"
        "22222222-2222-2222-2222-222222222222" [48, 49, 50, 51, 52, 53]) ∧
    (applyIdentity docNoKernel "NEWSN" "NEWMLB"
      "22222222-2222-2222-2222-222222222222" [48, 49, 50, 51, 52, 53]).get_serial_number =
      "NEWSN" ∧
    (applyIdentity docNoKernel "NEWSN" "NEWMLB"
      "22222222-2222-2222-2222-222222222222" [48, 49, 50, 51, 52, 53]).get_mlb = "NEWMLB" ∧
    (applyIdentity docNoKernel "NEWSN" "NEWMLB"
      "22222222-2222-2222-2222-222222222222"
      [48, 49, 50, 51, 52, 53]).platform_info.generic.system_uuid =
      "22222222-2222-2222-2222-222222222222" ∧
    (applyIdentity docNoKernel "NEWSN" "NEWMLB"
      "22222222-2222-2222-2222-222222222222"
      [48, 49, 50, 51, 52, 53]).platform_info.generic.rom =
      Value.data [48, 49, 50, 51, 52, 53] ∧
    (applyIdentity docNoKernel "NEWSN" "NEWMLB"
      "22222222-2222-2222-2222-222222222222" [48, 49, 50, 51, 52, 53]).other =
      docNoKernel.other ∧
    (applyIdentity docNoKernel "NEWSN" "NEWMLB"
      "22222222-2222-2222-2222-222222222222" [48, 49, 50, 51, 52, 53]).platform_info.other =
      docNoKernel.platform_info.other ∧
    (applyIdentity docNoKernel "NEWSN" "NEWMLB"
      "22222222-2222-2222-2222-222222222222"
      [48, 49, 50, 51, 52, 53]).platform_info.generic.other =
      docNoKernel.platform_info.generic.other ∧
    (applyIdentity docNoKernel "NEWSN" "NEWMLB"
      "22222222-2222-2222-2222-222222222222" [48, 49, 50, 51, 52, 53]).get_product_name =
      docNoKernel.get_product_name :=
  c9_set_identity_roundtrip docNoKernel "NEWSN" "NEWMLB"
    "22222222-2222-2222-2222-222222222222" [48, 49, 50, 51, 52, 53]
    ⟨⟨rfl, rfl⟩, rfl⟩
